import Mathlib

/-
Verification of the diesel-tracing pg.rs connection facade.

The development shallowly embeds src/pg.rs. The underlying diesel
PgConnection driver is modelled as an abstract state machine over a state
type sigma: a record of operations, each mapping a connection state to an
updated state and a result. Backend-visible calls are logged as Effect
values and emitted tracing spans as Span values, so that transparency,
span-emission and attribute claims become statements about these traces.
-/

namespace DieselTracing

/-- Opaque diesel error (diesel::result::Error); only its identity matters,
carried as a message string. -/
structure Error where
  msg : String
deriving DecidableEq, Repr

/-- The diesel ConnectionError variants reachable from pg.rs establish:
BadConnection is what PgConnection::establish produces when the driver
cannot open a connection (propagated unchanged by the question-mark operator
at pg.rs line 74); CouldntSetupConfiguration wraps the introspection query
error (pg.rs line 84). -/
inductive ConnectionError where
  | BadConnection (msg : String)
  | CouldntSetupConfiguration (e : Error)
deriving DecidableEq, Repr

/-- Rendering of a ConnectionError for span error recording. -/
def ConnectionError.render : ConnectionError → String
  | .BadConnection m => "BadConnection: " ++ m
  | .CouldntSetupConfiguration e => "CouldntSetupConfiguration: " ++ e.msg

/-- Model of ipnetwork::IpNetwork (external dependency of pg.rs): a textual
IP address together with a network prefix length. -/
structure IpNetwork where
  addr : String
  prefixLen : Nat
deriving DecidableEq, Repr

/-- Model of the Display implementation of ipnetwork::IpNetwork, which
renders the address followed by a slash and the prefix length
(for example "10.0.0.5/32"). This is what the percent-sigil formatting in
the instrument attributes of pg.rs invokes. -/
def IpNetwork.display (n : IpNetwork) : String :=
  n.addr ++ "/" ++ toString n.prefixLen

/-- The PgConnectionInfo struct of pg.rs lines 22-28. Note that the
inet_server_addr field has type ipnetwork::IpNetwork, not an Option. -/
structure PgConnectionInfo where
  current_database : String
  inet_server_addr : IpNetwork
  inet_server_port : Int
  version : String
deriving DecidableEq, Repr

/-- The raw SQL row returned by the introspection query
select current_database(), inet_server_addr(), inet_server_port(), version()
before Queryable decoding. At the SQL level inet_server_addr() returns NULL
for connections not made over an inet socket, hence the Option field. -/
structure RawConnInfo where
  current_database : String
  inet_server_addr : Option IpNetwork
  inet_server_port : Int
  version : String
deriving DecidableEq, Repr

/-- The derived Queryable decoding of the introspection row into
PgConnectionInfo (pg.rs lines 22-28, applied by get_result at line 83):
decoding a NULL inet_server_addr into the non-optional IpNetwork field
fails with the diesel unexpected-null deserialization error. -/
def decodeConnInfo (r : RawConnInfo) : Except Error PgConnectionInfo :=
  match r.inet_server_addr with
  | none => .error ⟨"Unexpected null for non-null column"⟩
  | some a => .ok ⟨r.current_database, a, r.inet_server_port, r.version⟩

/-- Backend-visible call made on the underlying PgConnection. One Effect is
logged per delegated driver call, in call order. -/
inductive Effect where
  | callEstablish (url : String)
  | introspectQuery
  | callBatchExecute (query : String)
  | callExecute (query : String)
  | callExecuteReturningCount (source : String)
  | callLoad (source : String)
  | callTransactionState
  | callPing
  | callBuildTransaction
deriving DecidableEq, Repr

/-- The fixed attribute schema of emitted spans. Option models the
tracing field-Empty placeholders used by establish before the metadata is
known (pg.rs lines 60-68); populated fields are some values. -/
structure SpanAttrs where
  dbName : Option String
  dbSystem : String
  dbVersion : Option String
  otelKind : String
  netPeerIp : Option String
  netPeerPort : Option Int
deriving DecidableEq, Repr

/-- Outcome recorded on a span when it closes: ok, or the error recorded by
the err directive of the instrument attribute. -/
inductive SpanOutcome where
  | ok
  | errored (msg : String)
deriving DecidableEq, Repr

/-- A completed tracing span: operation name, final attributes, outcome. -/
structure Span where
  name : String
  attrs : SpanAttrs
  outcome : SpanOutcome
deriving DecidableEq, Repr

/-- Model of the AnsiTransactionManager transaction state data returned by
transaction_state (the transaction depth). -/
abbrev TransactionState := Nat

/-- Model of diesel TransactionBuilder over PgConnection: a builder bound to
the connection value it was built from. The type parameter is the state of
the underlying PgConnection, so a builder can only be bound to the inner
connection, never to the facade. -/
structure TransactionBuilder (σ : Type) where
  connection : σ
deriving DecidableEq, Repr

/-- Abstract model of the underlying diesel PgConnection driver: each
operation maps the connection state (and arguments) to an updated state and
a result. Queries and sources are opaque descriptors (strings), rows are
opaque strings; introspect models executing the four-field metadata select
of pg.rs lines 77-83. -/
structure Driver (σ : Type) where
  establish : String → Except ConnectionError σ
  introspect : σ → σ × Except Error RawConnInfo
  batch_execute : σ → String → σ × Except Error Unit
  execute : σ → String → σ × Except Error Nat
  execute_returning_count : σ → String → σ × Except Error Nat
  load : σ → String → σ × Except Error (List String)
  transaction_state : σ → σ × TransactionState
  ping : σ → σ × Except Error Unit
  build_transaction : σ → σ × TransactionBuilder σ

/-- The InstrumentedPgConnection struct of pg.rs lines 30-33: the inner
connection state plus the frozen PgConnectionInfo record. -/
structure InstrumentedPgConnection (σ : Type) where
  inner : σ
  info : PgConnectionInfo
deriving DecidableEq, Repr

/-- The six fixed span attributes populated from the frozen metadata, as
written in every instrument attribute block of pg.rs wrapped operations:
db.name, db.system, db.version, otel.kind, net.peer.ip (Display of the
IpNetwork value), net.peer.port. -/
def PgConnectionInfo.spanAttrs (info : PgConnectionInfo) : SpanAttrs :=
  ⟨some info.current_database, "postgresql", some info.version, "client",
   some info.inet_server_addr.display, some info.inet_server_port⟩

/-- The initial attributes of the establish span (pg.rs lines 60-68): the
metadata fields are Empty, only db.system and otel.kind are set. -/
def establishInitialAttrs : SpanAttrs :=
  ⟨none, "postgresql", none, "client", none, none⟩

/-- Span outcome determined by the err directive: error results are
recorded on the span, successes close it normally. -/
def outcomeOf {α : Type} : Except Error α → SpanOutcome
  | .ok _ => .ok
  | .error e => .errored e.msg

/-- Result of running an operation directly on the raw PgConnection:
the returned value, the updated connection state and the logged backend
effects. A raw connection emits no spans. -/
structure Direct (σ α : Type) where
  result : α
  conn : σ
  effects : List Effect
deriving Repr

/-- Result of running an operation on the facade: the returned value, the
updated facade, the logged backend effects and the emitted spans. -/
structure Traced (σ α : Type) where
  result : α
  conn : σ
  effects : List Effect
  spans : List Span
deriving Repr

/-- Result of establish on the facade: either the finished
InstrumentedPgConnection or a ConnectionError (no connection escapes on
failure), plus the logged effects and the establish span. -/
structure EstablishResult (σ : Type) where
  result : Except ConnectionError (InstrumentedPgConnection σ)
  effects : List Effect
  spans : List Span
deriving Repr

namespace PgConnection

/-- Direct semantics of batch_execute on the raw PgConnection. -/
def batch_execute {σ : Type} (d : Driver σ) (s : σ) (query : String) :
    Direct σ (Except Error Unit) :=
  let p := d.batch_execute s query
  ⟨p.2, p.1, [.callBatchExecute query]⟩

/-- Direct semantics of execute on the raw PgConnection. -/
def execute {σ : Type} (d : Driver σ) (s : σ) (query : String) :
    Direct σ (Except Error Nat) :=
  let p := d.execute s query
  ⟨p.2, p.1, [.callExecute query]⟩

/-- Direct semantics of execute_returning_count on the raw PgConnection. -/
def execute_returning_count {σ : Type} (d : Driver σ) (s : σ)
    (source : String) : Direct σ (Except Error Nat) :=
  let p := d.execute_returning_count s source
  ⟨p.2, p.1, [.callExecuteReturningCount source]⟩

/-- Direct semantics of load on the raw PgConnection. -/
def load {σ : Type} (d : Driver σ) (s : σ) (source : String) :
    Direct σ (Except Error (List String)) :=
  let p := d.load s source
  ⟨p.2, p.1, [.callLoad source]⟩

/-- Direct semantics of transaction_state on the raw PgConnection. -/
def transaction_state {σ : Type} (d : Driver σ) (s : σ) :
    Direct σ TransactionState :=
  let p := d.transaction_state s
  ⟨p.2, p.1, [.callTransactionState]⟩

/-- Direct semantics of ping on the raw PgConnection. -/
def ping {σ : Type} (d : Driver σ) (s : σ) : Direct σ (Except Error Unit) :=
  let p := d.ping s
  ⟨p.2, p.1, [.callPing]⟩

/-- Direct semantics of build_transaction on the raw PgConnection. -/
def build_transaction {σ : Type} (d : Driver σ) (s : σ) :
    Direct σ (TransactionBuilder σ) :=
  let p := d.build_transaction s
  ⟨p.2, p.1, [.callBuildTransaction]⟩

end PgConnection

namespace InstrumentedPgConnection

/-- establish of pg.rs lines 72-96: open the establish span with Empty
metadata fields; delegate to PgConnection::establish, propagating its error
unchanged; on success run the single introspection select, wrapping any
query or decode error in CouldntSetupConfiguration; on success record the
four metadata attributes on the span and return the finished facade. -/
def establish {σ : Type} (d : Driver σ) (url : String) : EstablishResult σ :=
  match d.establish url with
  | .error e =>
      ⟨.error e, [.callEstablish url],
       [⟨"establish", establishInitialAttrs, .errored e.render⟩]⟩
  | .ok conn =>
      match (d.introspect conn).2 with
      | .error e =>
          ⟨.error (.CouldntSetupConfiguration e),
           [.callEstablish url, .introspectQuery],
           [⟨"establish", establishInitialAttrs,
             .errored (ConnectionError.CouldntSetupConfiguration e).render⟩]⟩
      | .ok raw =>
          match decodeConnInfo raw with
          | .error e =>
              ⟨.error (.CouldntSetupConfiguration e),
               [.callEstablish url, .introspectQuery],
               [⟨"establish", establishInitialAttrs,
                 .errored (ConnectionError.CouldntSetupConfiguration e).render⟩]⟩
          | .ok info =>
              ⟨.ok ⟨(d.introspect conn).1, info⟩,
               [.callEstablish url, .introspectQuery],
               [⟨"establish", info.spanAttrs, .ok⟩]⟩

/-- batch_execute of pg.rs lines 36-53: span with the six metadata
attributes and err directive, delegating to the inner connection. -/
def batch_execute {σ : Type} (d : Driver σ) (c : InstrumentedPgConnection σ)
    (query : String) :
    Traced (InstrumentedPgConnection σ) (Except Error Unit) :=
  let p := d.batch_execute c.inner query
  ⟨p.2, ⟨p.1, c.info⟩, [.callBatchExecute query],
   [⟨"batch_execute", c.info.spanAttrs, outcomeOf p.2⟩]⟩

/-- execute of pg.rs lines 98-114: span with the six metadata attributes
and err directive, delegating to the inner connection. -/
def execute {σ : Type} (d : Driver σ) (c : InstrumentedPgConnection σ)
    (query : String) :
    Traced (InstrumentedPgConnection σ) (Except Error Nat) :=
  let p := d.execute c.inner query
  ⟨p.2, ⟨p.1, c.info⟩, [.callExecute query],
   [⟨"execute", c.info.spanAttrs, outcomeOf p.2⟩]⟩

/-- execute_returning_count of pg.rs lines 116-135: span with the six
metadata attributes and err directive, delegating to the inner
connection. -/
def execute_returning_count {σ : Type} (d : Driver σ)
    (c : InstrumentedPgConnection σ) (source : String) :
    Traced (InstrumentedPgConnection σ) (Except Error Nat) :=
  let p := d.execute_returning_count c.inner source
  ⟨p.2, ⟨p.1, c.info⟩, [.callExecuteReturningCount source],
   [⟨"execute_returning_count", c.info.spanAttrs, outcomeOf p.2⟩]⟩

/-- load of pg.rs lines 137-159: span with the six metadata attributes and
err directive, delegating to the inner connection. -/
def load {σ : Type} (d : Driver σ) (c : InstrumentedPgConnection σ)
    (source : String) :
    Traced (InstrumentedPgConnection σ) (Except Error (List String)) :=
  let p := d.load c.inner source
  ⟨p.2, ⟨p.1, c.info⟩, [.callLoad source],
   [⟨"load", c.info.spanAttrs, outcomeOf p.2⟩]⟩

/-- transaction_state of pg.rs lines 161-178: it carries an instrument
attribute with the six metadata fields (and no err directive), so it emits
a span, then delegates to the inner connection. -/
def transaction_state {σ : Type} (d : Driver σ)
    (c : InstrumentedPgConnection σ) :
    Traced (InstrumentedPgConnection σ) TransactionState :=
  let p := d.transaction_state c.inner
  ⟨p.2, ⟨p.1, c.info⟩, [.callTransactionState],
   [⟨"transaction_state", c.info.spanAttrs, .ok⟩]⟩

/-- ping of pg.rs lines 181-185: no instrument attribute, a bare
delegation to the inner connection emitting no span. -/
def ping {σ : Type} (d : Driver σ) (c : InstrumentedPgConnection σ) :
    Traced (InstrumentedPgConnection σ) (Except Error Unit) :=
  let p := d.ping c.inner
  ⟨p.2, ⟨p.1, c.info⟩, [.callPing], []⟩

/-- build_transaction of pg.rs lines 187-203: span with the six metadata
attributes, then returns the TransactionBuilder obtained from the inner
connection. -/
def build_transaction {σ : Type} (d : Driver σ)
    (c : InstrumentedPgConnection σ) :
    Traced (InstrumentedPgConnection σ) (TransactionBuilder σ) :=
  let p := d.build_transaction c.inner
  ⟨p.2, ⟨p.1, c.info⟩, [.callBuildTransaction],
   [⟨"build_transaction", c.info.spanAttrs, .ok⟩]⟩

end InstrumentedPgConnection

/-- Sample metadata used by concrete test drivers. -/
def sampleInfo : PgConnectionInfo :=
  ⟨"orders_db", ⟨"10.0.0.5", 32⟩, 5432, "14.2"⟩

/-- Sample introspection row matching sampleInfo. -/
def sampleRaw : RawConnInfo :=
  ⟨"orders_db", some ⟨"10.0.0.5", 32⟩, 5432, "14.2"⟩

/-- A concrete well-behaved driver over Nat states, used to evaluate the
facade on concrete inputs. -/
def testDriver : Driver Nat where
  establish := fun _ => .ok 0
  introspect := fun s => (s, .ok sampleRaw)
  batch_execute := fun s _ => (s + 1, .ok ())
  execute := fun s _ => (s + 1, .ok 3)
  execute_returning_count := fun s _ => (s + 1, .ok 2)
  load := fun s _ => (s + 1, .ok ["row1"])
  transaction_state := fun s => (s, 0)
  ping := fun s => (s, .ok ())
  build_transaction := fun s => (s, ⟨s⟩)

/-- A concrete established facade over testDriver. -/
def testConn : InstrumentedPgConnection Nat := ⟨0, sampleInfo⟩

/-- A driver whose establish fails with a BadConnection error. -/
def failEstablishDriver : Driver Nat :=
  { testDriver with
      establish := fun _ => .error (.BadConnection "could not connect") }

/-- A driver whose connection opens but whose introspection query fails. -/
def failIntrospectDriver : Driver Nat :=
  { testDriver with
      introspect := fun s => (s, .error ⟨"permission denied"⟩) }

/-- A driver whose introspection row reports a NULL inet_server_addr, as a
backend does on a unix-socket connection. -/
def nullAddrDriver : Driver Nat :=
  { testDriver with
      introspect := fun s => (s, .ok ⟨"orders_db", none, 5432, "14.2"⟩) }

/-- C1: transparency of the facade. For every wrapped operation
(batch_execute, execute, execute_returning_count, load, build_transaction),
every driver, every established facade and any arguments, the facade
returns exactly the value or error the same operation on the inner
PgConnection returns, leaves the inner connection in the same state, and
performs exactly the same underlying calls in the same order; the only
difference is the emission of exactly one span per call. -/
theorem C1_facade_transparency {σ : Type} (d : Driver σ)
    (c : InstrumentedPgConnection σ) (q e rc ld : String) :
    ((InstrumentedPgConnection.batch_execute d c q).result
        = (PgConnection.batch_execute d c.inner q).result
      ∧ (InstrumentedPgConnection.batch_execute d c q).conn.inner
        = (PgConnection.batch_execute d c.inner q).conn
      ∧ (InstrumentedPgConnection.batch_execute d c q).effects
        = (PgConnection.batch_execute d c.inner q).effects
      ∧ (InstrumentedPgConnection.batch_execute d c q).spans.length = 1)
    ∧ ((InstrumentedPgConnection.execute d c e).result
        = (PgConnection.execute d c.inner e).result
      ∧ (InstrumentedPgConnection.execute d c e).conn.inner
        = (PgConnection.execute d c.inner e).conn
      ∧ (InstrumentedPgConnection.execute d c e).effects
        = (PgConnection.execute d c.inner e).effects
      ∧ (InstrumentedPgConnection.execute d c e).spans.length = 1)
    ∧ ((InstrumentedPgConnection.execute_returning_count d c rc).result
        = (PgConnection.execute_returning_count d c.inner rc).result
      ∧ (InstrumentedPgConnection.execute_returning_count d c rc).conn.inner
        = (PgConnection.execute_returning_count d c.inner rc).conn
      ∧ (InstrumentedPgConnection.execute_returning_count d c rc).effects
        = (PgConnection.execute_returning_count d c.inner rc).effects
      ∧ (InstrumentedPgConnection.execute_returning_count d c rc).spans.length
          = 1)
    ∧ ((InstrumentedPgConnection.load d c ld).result
        = (PgConnection.load d c.inner ld).result
      ∧ (InstrumentedPgConnection.load d c ld).conn.inner
        = (PgConnection.load d c.inner ld).conn
      ∧ (InstrumentedPgConnection.load d c ld).effects
        = (PgConnection.load d c.inner ld).effects
      ∧ (InstrumentedPgConnection.load d c ld).spans.length = 1)
    ∧ ((InstrumentedPgConnection.build_transaction d c).result
        = (PgConnection.build_transaction d c.inner).result
      ∧ (InstrumentedPgConnection.build_transaction d c).conn.inner
        = (PgConnection.build_transaction d c.inner).conn
      ∧ (InstrumentedPgConnection.build_transaction d c).effects
        = (PgConnection.build_transaction d c.inner).effects
      ∧ (InstrumentedPgConnection.build_transaction d c).spans.length = 1) :=
  ⟨⟨rfl, rfl, rfl, rfl⟩, ⟨rfl, rfl, rfl, rfl⟩, ⟨rfl, rfl, rfl, rfl⟩,
   ⟨rfl, rfl, rfl, rfl⟩, ⟨rfl, rfl, rfl, rfl⟩⟩

/-- C5: metadata immutability. For every driver, every established facade
and any arguments, each of the seven operations (batch_execute, execute,
execute_returning_count, load, transaction_state, build_transaction, ping)
returns a facade whose stored PgConnectionInfo record is exactly the one
stored before the call: the record is only read, never written, after
construction. -/
theorem C5_metadata_immutable {σ : Type} (d : Driver σ)
    (c : InstrumentedPgConnection σ) (q e rc ld : String) :
    (InstrumentedPgConnection.batch_execute d c q).conn.info = c.info
    ∧ (InstrumentedPgConnection.execute d c e).conn.info = c.info
    ∧ (InstrumentedPgConnection.execute_returning_count d c rc).conn.info
        = c.info
    ∧ (InstrumentedPgConnection.load d c ld).conn.info = c.info
    ∧ (InstrumentedPgConnection.transaction_state d c).conn.info = c.info
    ∧ (InstrumentedPgConnection.build_transaction d c).conn.info = c.info
    ∧ (InstrumentedPgConnection.ping d c).conn.info = c.info :=
  ⟨rfl, rfl, rfl, rfl, rfl, rfl, rfl⟩

/-- C6: attribute completeness. Every span emitted by a wrapped operation
after establish (batch_execute, execute, execute_returning_count, load,
build_transaction) is the single span of that call and carries all six
fixed attributes (db.name, db.system postgresql, db.version, otel.kind
client, net.peer.ip, net.peer.port) populated from the bootstrap metadata;
and since each operation returns a facade with the same metadata record,
the attributes are identical across any number of subsequent operations on
the same instance. -/
theorem C6_attribute_completeness {σ : Type} (d : Driver σ)
    (c : InstrumentedPgConnection σ) (q e rc ld : String) :
    (InstrumentedPgConnection.batch_execute d c q).spans
      = [⟨"batch_execute", c.info.spanAttrs,
          outcomeOf (d.batch_execute c.inner q).2⟩]
    ∧ (InstrumentedPgConnection.execute d c e).spans
      = [⟨"execute", c.info.spanAttrs, outcomeOf (d.execute c.inner e).2⟩]
    ∧ (InstrumentedPgConnection.execute_returning_count d c rc).spans
      = [⟨"execute_returning_count", c.info.spanAttrs,
          outcomeOf (d.execute_returning_count c.inner rc).2⟩]
    ∧ (InstrumentedPgConnection.load d c ld).spans
      = [⟨"load", c.info.spanAttrs, outcomeOf (d.load c.inner ld).2⟩]
    ∧ (InstrumentedPgConnection.build_transaction d c).spans
      = [⟨"build_transaction", c.info.spanAttrs, .ok⟩]
    ∧ c.info.spanAttrs
      = ⟨some c.info.current_database, "postgresql", some c.info.version,
         "client", some c.info.inet_server_addr.display,
         some c.info.inet_server_port⟩
    ∧ (InstrumentedPgConnection.batch_execute d c q).conn.info.spanAttrs
        = c.info.spanAttrs
    ∧ (InstrumentedPgConnection.execute d c e).conn.info.spanAttrs
        = c.info.spanAttrs
    ∧ (InstrumentedPgConnection.execute_returning_count d c
          rc).conn.info.spanAttrs = c.info.spanAttrs
    ∧ (InstrumentedPgConnection.load d c ld).conn.info.spanAttrs
        = c.info.spanAttrs
    ∧ (InstrumentedPgConnection.build_transaction d c).conn.info.spanAttrs
        = c.info.spanAttrs :=
  ⟨rfl, rfl, rfl, rfl, rfl, rfl, rfl, rfl, rfl, rfl, rfl⟩

/-- C8: build_transaction on the facade returns exactly the
TransactionBuilder that the inner PgConnection produces, a value of the
builder type over the inner connection state (so it is bound to the inner
connection, not to the facade, and statement-level calls made through it
are the driver calls of the inner builder, not individually span-wrapped by
this layer); the build_transaction entry point itself emits exactly one
span. -/
theorem C8_builder_bound_to_inner {σ : Type} (d : Driver σ)
    (c : InstrumentedPgConnection σ) :
    (InstrumentedPgConnection.build_transaction d c).result
      = (PgConnection.build_transaction d c.inner).result
    ∧ (InstrumentedPgConnection.build_transaction d c).result.connection
      = (d.build_transaction c.inner).2.connection
    ∧ (InstrumentedPgConnection.build_transaction d c).spans
      = [⟨"build_transaction", c.info.spanAttrs, .ok⟩] :=
  ⟨rfl, rfl, rfl⟩

/-- C2 counterexample: the claim says transaction_state never emits a span,
but pg.rs lines 161-178 wrap transaction_state in an instrument attribute,
so on the concrete established connection testConn a transaction_state call
emits exactly one span (with the six metadata attributes), refuting the
claim as stated. -/
theorem C2_counterexample :
    (InstrumentedPgConnection.transaction_state testDriver testConn).spans
      = [⟨"transaction_state", sampleInfo.spanAttrs, .ok⟩]
    ∧ (InstrumentedPgConnection.transaction_state testDriver testConn).spans
      ≠ [] := by
  refine ⟨rfl, ?_⟩
  decide

/-- C2 amended: ping never emits a span and forwards the result of the
inner ping unchanged; transaction_state forwards the inner transaction
state unchanged but does emit one span carrying the six metadata
attributes, because pg.rs instruments it. -/
theorem C2_pass_through_amended {σ : Type} (d : Driver σ)
    (c : InstrumentedPgConnection σ) :
    (InstrumentedPgConnection.ping d c).spans = []
    ∧ (InstrumentedPgConnection.ping d c).result
      = (PgConnection.ping d c.inner).result
    ∧ (InstrumentedPgConnection.ping d c).conn.inner
      = (PgConnection.ping d c.inner).conn
    ∧ (InstrumentedPgConnection.transaction_state d c).result
      = (PgConnection.transaction_state d c.inner).result
    ∧ (InstrumentedPgConnection.transaction_state d c).conn.inner
      = (PgConnection.transaction_state d c.inner).conn
    ∧ (InstrumentedPgConnection.transaction_state d c).spans
      = [⟨"transaction_state", c.info.spanAttrs, .ok⟩] :=
  ⟨rfl, rfl, rfl, rfl, rfl, rfl⟩

/-- C3: failure isolation in establish. For every database url on which the
underlying PgConnection::establish fails with the establishment-failure
kind (BadConnection), the facade establish returns that driver error
unchanged and never issues the metadata introspection query. -/
theorem C3_establish_failure_isolation {σ : Type} (d : Driver σ)
    (url m : String) (h : d.establish url = .error (.BadConnection m)) :
    (InstrumentedPgConnection.establish d url).result
      = .error (.BadConnection m)
    ∧ Effect.introspectQuery
        ∉ (InstrumentedPgConnection.establish d url).effects := by
  unfold InstrumentedPgConnection.establish
  rw [h]
  exact ⟨rfl, by simp⟩

/-- C3 witness: on the concrete driver failEstablishDriver, whose establish
fails with BadConnection, the facade establish returns that same error and
logs no introspection effect. -/
theorem C3_witness :
    (InstrumentedPgConnection.establish failEstablishDriver
        "postgres://u@bad/db").result
      = .error (.BadConnection "could not connect")
    ∧ Effect.introspectQuery
        ∉ (InstrumentedPgConnection.establish failEstablishDriver
            "postgres://u@bad/db").effects :=
  C3_establish_failure_isolation failEstablishDriver "postgres://u@bad/db"
    "could not connect" rfl

/-- C4: distinct bootstrap failure modes. For every run of establish in
which the underlying connection opens successfully but the introspection
query fails, the facade returns CouldntSetupConfiguration wrapping the
query error, which is a different constructor from the
establishment-failure kind BadConnection, and no InstrumentedPgConnection
is produced (the opened connection does not escape in the result). -/
theorem C4_metadata_query_failure {σ : Type} (d : Driver σ) (url : String)
    (s : σ) (e : Error) (h1 : d.establish url = .ok s)
    (h2 : (d.introspect s).2 = .error e) :
    (InstrumentedPgConnection.establish d url).result
      = .error (.CouldntSetupConfiguration e)
    ∧ (∀ m, ConnectionError.CouldntSetupConfiguration e
        ≠ ConnectionError.BadConnection m)
    ∧ ∀ c : InstrumentedPgConnection σ,
        (InstrumentedPgConnection.establish d url).result ≠ .ok c := by
  unfold InstrumentedPgConnection.establish
  rw [h1]
  simp only [h2]
  exact ⟨by simp, fun m => by simp, fun c => by simp⟩

/-- C4 witness: on the concrete driver failIntrospectDriver, whose
establish succeeds but whose introspection query fails, the facade
establish returns CouldntSetupConfiguration and produces no connection. -/
theorem C4_witness :
    (InstrumentedPgConnection.establish failIntrospectDriver
        "postgres://u@host/db").result
      = .error (.CouldntSetupConfiguration ⟨"permission denied"⟩)
    ∧ (∀ m, ConnectionError.CouldntSetupConfiguration ⟨"permission denied"⟩
        ≠ ConnectionError.BadConnection m)
    ∧ ∀ c : InstrumentedPgConnection Nat,
        (InstrumentedPgConnection.establish failIntrospectDriver
            "postgres://u@host/db").result ≠ .ok c :=
  C4_metadata_query_failure failIntrospectDriver "postgres://u@host/db"
    0 ⟨"permission denied"⟩ rfl rfl

/-- C7 counterexample: the claim says establish succeeds even when the
backend reports no inet server address, but the inet_server_addr field of
PgConnectionInfo is a plain IpNetwork, not an Option, so on the concrete
driver nullAddrDriver (which opens the connection and reports a NULL
inet_server_addr, as on a unix-socket connection) the introspection row
fails to decode and establish fails instead of succeeding. -/
theorem C7_counterexample :
    (InstrumentedPgConnection.establish nullAddrDriver
        "postgres://localhost/db").result
      = .error (.CouldntSetupConfiguration
          ⟨"Unexpected null for non-null column"⟩) :=
  rfl

/-- C7 amended: the server address field of the stored metadata record is
required, not optional; whenever the underlying connection opens and the
introspection query returns a row whose inet_server_addr is NULL, the row
fails to decode and establish fails with CouldntSetupConfiguration
wrapping the unexpected-null deserialization error, rather than
succeeding with an absent address. -/
theorem C7_null_addr_amended {σ : Type} (d : Driver σ) (url : String)
    (s : σ) (raw : RawConnInfo) (h1 : d.establish url = .ok s)
    (h2 : (d.introspect s).2 = .ok raw)
    (h3 : raw.inet_server_addr = none) :
    (InstrumentedPgConnection.establish d url).result
      = .error (.CouldntSetupConfiguration
          ⟨"Unexpected null for non-null column"⟩) := by
  unfold InstrumentedPgConnection.establish
  rw [h1]
  simp only [h2, decodeConnInfo, h3]

/-- C7 witness: the amended statement evaluated on nullAddrDriver at a
socket-style target. -/
theorem C7_witness :
    (InstrumentedPgConnection.establish nullAddrDriver
        "postgres:///db?host=/var/run/postgresql").result
      = .error (.CouldntSetupConfiguration
          ⟨"Unexpected null for non-null column"⟩) :=
  C7_null_addr_amended nullAddrDriver "postgres:///db?host=/var/run/postgresql"
    0 ⟨"orders_db", none, 5432, "14.2"⟩ rfl rfl rfl

/-- Inversion of a successful establish: it can only arise from a
successful driver establish followed by a single introspection query whose
row decodes, and in that case the effects are exactly the establish call
followed by one introspection query and the span is the single populated
establish span. -/
theorem establish_ok_inv {σ : Type} (d : Driver σ) (url : String)
    (c : InstrumentedPgConnection σ)
    (h : (InstrumentedPgConnection.establish d url).result = .ok c) :
    ∃ s raw, d.establish url = .ok s ∧ (d.introspect s).2 = .ok raw
      ∧ decodeConnInfo raw = .ok c.info
      ∧ c.inner = (d.introspect s).1
      ∧ (InstrumentedPgConnection.establish d url).effects
          = [.callEstablish url, .introspectQuery]
      ∧ (InstrumentedPgConnection.establish d url).spans
          = [⟨"establish", c.info.spanAttrs, .ok⟩] := by
  unfold InstrumentedPgConnection.establish at h ⊢
  cases he : d.establish url with
  | error e => rw [he] at h; simp at h
  | ok s =>
    rw [he] at h
    cases hi : (d.introspect s).2 with
    | error e => simp only [hi] at h; simp at h
    | ok raw =>
      simp only [hi] at h
      cases hd : decodeConnInfo raw with
      | error e => simp only [hd] at h; simp at h
      | ok info =>
        simp only [hd] at h
        simp at h
        subst h
        refine ⟨s, raw, rfl, hi, ?_, ?_, ?_, ?_⟩ <;> simp [hi, hd]

/-- Field correspondence of a successful Queryable decode: the decoded
PgConnectionInfo carries exactly the four fields of the raw introspection
row, with the address present. -/
theorem decode_ok_fields (raw : RawConnInfo) (info : PgConnectionInfo)
    (h : decodeConnInfo raw = .ok info) :
    raw.inet_server_addr = some info.inet_server_addr
    ∧ raw.current_database = info.current_database
    ∧ raw.inet_server_port = info.inet_server_port
    ∧ raw.version = info.version := by
  unfold decodeConnInfo at h
  cases ha : raw.inet_server_addr with
  | none => rw [ha] at h; simp at h
  | some a =>
    rw [ha] at h
    simp at h
    subst h
    exact ⟨rfl, rfl, rfl, rfl⟩

/-- C9: single-round-trip introspection. In every successful run of
establish, the logged backend effects are exactly the driver establish call
followed by one introspection query (so the introspection query is issued
exactly once), and that single query returned a row carrying all four
metadata fields together, which are the fields stored in the returned
facade. -/
theorem C9_single_introspection {σ : Type} (d : Driver σ) (url : String)
    (c : InstrumentedPgConnection σ)
    (h : (InstrumentedPgConnection.establish d url).result = .ok c) :
    (InstrumentedPgConnection.establish d url).effects
      = [.callEstablish url, .introspectQuery]
    ∧ (InstrumentedPgConnection.establish d url).effects.count
        Effect.introspectQuery = 1
    ∧ ∃ s raw, d.establish url = .ok s
        ∧ (d.introspect s).2 = .ok raw
        ∧ raw.current_database = c.info.current_database
        ∧ raw.inet_server_addr = some c.info.inet_server_addr
        ∧ raw.inet_server_port = c.info.inet_server_port
        ∧ raw.version = c.info.version := by
  obtain ⟨s, raw, he, hi, hd, hc, heff, hspan⟩ := establish_ok_inv d url c h
  obtain ⟨f1, f2, f3, f4⟩ := decode_ok_fields raw c.info hd
  exact ⟨heff, by rw [heff]; rfl, s, raw, he, hi, f2, f1, f3, f4⟩

/-- C9 witness: on the concrete driver testDriver, establish succeeds with
the sample metadata and issues the introspection query exactly once. -/
theorem C9_witness :
    (InstrumentedPgConnection.establish testDriver
        "postgres://u@host/orders_db").result = .ok ⟨0, sampleInfo⟩
    ∧ (InstrumentedPgConnection.establish testDriver
        "postgres://u@host/orders_db").effects.count
        Effect.introspectQuery = 1 :=
  ⟨rfl, (C9_single_introspection testDriver "postgres://u@host/orders_db"
    ⟨0, sampleInfo⟩ rfl).2.1⟩

/-- C10: the net.peer.ip span attribute is the Display rendering of the
stored ipnetwork IpNetwork value, the address followed by a slash and the
network prefix length, not a bare address string; every span emitted by a
wrapped operation carries this form, and so does the populated establish
span of a successful run. -/
theorem C10_net_peer_ip_prefixed {σ : Type} (d : Driver σ)
    (url q e rc ld : String) (c : InstrumentedPgConnection σ)
    (h : (InstrumentedPgConnection.establish d url).result = .ok c) :
    c.info.spanAttrs.netPeerIp = some c.info.inet_server_addr.display
    ∧ c.info.inet_server_addr.display
        = c.info.inet_server_addr.addr ++ "/"
          ++ toString c.info.inet_server_addr.prefixLen
    ∧ (InstrumentedPgConnection.establish d url).spans
        = [⟨"establish", c.info.spanAttrs, .ok⟩]
    ∧ (InstrumentedPgConnection.batch_execute d c q).spans.map
        (fun sp => sp.attrs.netPeerIp)
        = [some c.info.inet_server_addr.display]
    ∧ (InstrumentedPgConnection.execute d c e).spans.map
        (fun sp => sp.attrs.netPeerIp)
        = [some c.info.inet_server_addr.display]
    ∧ (InstrumentedPgConnection.execute_returning_count d c rc).spans.map
        (fun sp => sp.attrs.netPeerIp)
        = [some c.info.inet_server_addr.display]
    ∧ (InstrumentedPgConnection.load d c ld).spans.map
        (fun sp => sp.attrs.netPeerIp)
        = [some c.info.inet_server_addr.display]
    ∧ (InstrumentedPgConnection.build_transaction d c).spans.map
        (fun sp => sp.attrs.netPeerIp)
        = [some c.info.inet_server_addr.display] := by
  obtain ⟨s, raw, he, hi, hd, hc, heff, hspan⟩ := establish_ok_inv d url c h
  exact ⟨rfl, rfl, hspan, rfl, rfl, rfl, rfl, rfl⟩

/-- C10 witness: the Display rendering of the sample address carries the
prefix-length suffix, and the concrete establish span holds it. -/
theorem C10_witness :
    IpNetwork.display ⟨"10.0.0.5", 32⟩ = "10.0.0.5/32"
    ∧ (InstrumentedPgConnection.establish testDriver
        "postgres://tracing@host/orders_db").spans
      = [⟨"establish", sampleInfo.spanAttrs, .ok⟩] :=
  ⟨rfl, (C10_net_peer_ip_prefixed testDriver "postgres://tracing@host/orders_db"
    "q" "e" "rc" "ld" ⟨0, sampleInfo⟩ rfl).2.2.1⟩

end DieselTracing
